import Mathlib

/-!
Verification of the hostel-management occupancy and billing core.

The source is an Express + SQLite server (`forms.js`).  Its business core is:

* the fee/billing derivation (`resolveFeeStatus`, `buildFeeSnapshot`),
* the allocation endpoint (`POST /allocate`),
* the transfer endpoint (`POST /transfer-room`, wrapped in a SQL transaction),
* the payment endpoint (`POST /payments/add`),
* the student-deletion endpoint (`DELETE /students/:id`, in a transaction),
* room creation/update (`POST /rooms/add`, `PUT /rooms/:id`).

Modelling conventions:

* SQL rows become Lean structures; tables become lists kept in insertion
  (rowid) order, so `db.get` (first matching row) is `List.find?`.
* JavaScript numbers are modelled as `ℚ` (every numeric value the server
  stores or compares is obtained from finite JS numbers; `Number.isFinite`
  checks are therefore vacuous in the model and noted where they occur).
* Dates are day numbers (`Int`): the server normalises every date to UTC
  midnight (`startOfTodayUTC`, `parseDbDate`) and stores ISO `YYYY-MM-DD`
  strings, whose SQL ordering agrees with day-number ordering, so
  `ORDER BY date DESC LIMIT 1` is `List.max?` of the day numbers and
  `Math.floor((today - dueDate) / DAY_MS)` is plain `Int` subtraction.
* `parseInt`-validated ids: a JS-falsy id (`0`, `NaN` from a bad string)
  is modelled as the id `0`.
* Fallible handlers return `Except`/a result type carrying the HTTP status
  and message; handlers that run inside a SQL transaction return the
  pre-call database from every error branch (ROLLBACK), while the
  non-transactional allocation handler keeps whatever writes succeeded.
* Storage faults are injected through an explicit fault set listing which
  write steps fail, mirroring the `err` callbacks of `db.run`.

The toolchain's `Rat.add`/`Rat.mul` are `@[irreducible]`, so the model uses
`mkRat`-based operations `qadd`/`qmul` (proved equal to `+`/`*` below) to
keep every definition kernel-computable.
-/

namespace Hostel

/-- Addition on `ℚ` by numerator/denominator, kernel-reducible. -/
def qadd (a b : ℚ) : ℚ := mkRat (a.num * b.den + b.num * a.den) (a.den * b.den)

/-- Multiplication on `ℚ` by numerator/denominator, kernel-reducible. -/
def qmul (a b : ℚ) : ℚ := mkRat (a.num * b.num) (a.den * b.den)

theorem qadd_eq_add (a b : ℚ) : qadd a b = a + b := by
  unfold qadd
  rw [Rat.add_def, Rat.normalize_eq_mkRat]

theorem qmul_eq_mul (a b : ℚ) : qmul a b = a * b := by
  unfold qmul
  rw [Rat.mul_def, Rat.normalize_eq_mkRat]

/-- JS `Math.round(x * 100) / 100`: round to two decimals, halves toward
positive infinity (`Math.round(y) = ⌊y + 1/2⌋`). -/
def round2 (q : ℚ) : ℚ := mkRat (Rat.floor (qadd (qmul q 100) (mkRat 1 2))) 100

theorem ratFloor_eq_intFloor (q : ℚ) : Rat.floor q = Int.floor q :=
  (Rat.floor_def' q).trans Rat.floor_def.symm

theorem mkRat_eq_divCast (n : Int) (d : Nat) : mkRat n d = (n : ℚ) / (d : ℚ) := by
  rw [Rat.mkRat_eq_divInt, Rat.divInt_eq_div]
  norm_num

theorem round2_eq (q : ℚ) : round2 q = (Int.floor (q * 100 + 1/2) : ℚ) / 100 := by
  unfold round2
  rw [qadd_eq_add, qmul_eq_mul, ratFloor_eq_intFloor, mkRat_eq_divCast, mkRat_eq_divCast]
  norm_num

/-- Constant `MAX_MONTHLY_FEE = 500000` (forms.js line 1142). -/
def MAX_MONTHLY_FEE : ℚ := 500000

/-- Constant `MAX_ROOM_CAPACITY = 50` (forms.js line 1143). -/
def MAX_ROOM_CAPACITY : ℚ := 50

/-- A `Rooms` row: `room_id, room_number, capacity, current_occupancy,
room_type, monthly_fee` (the `floor_level` and `wifi_available` columns play
no part in the occupancy/billing core and are omitted).  `capacity` and
`monthly_fee` are arbitrary JS numbers (`ℚ`); `current_occupancy` is an
integer column that only ever receives guarded increments/decrements. -/
structure Room where
  room_id : Nat
  room_number : String
  capacity : ℚ
  current_occupancy : Int
  room_type : String
  monthly_fee : ℚ
deriving Repr, DecidableEq

/-- An `Allocations` row: `allocation_id, student_id, room_id, allocation_date`. -/
structure Allocation where
  allocation_id : Nat
  student_id : Nat
  room_id : Nat
  allocation_date : Int
deriving Repr, DecidableEq

/-- A `Payments` row: `payment_id, student_id, amount, date`. -/
structure Payment where
  payment_id : Nat
  student_id : Nat
  amount : ℚ
  date : Int
deriving Repr, DecidableEq

/-- The database: `Students` reduced to the ids the handlers consult, plus
the `Rooms`, `Allocations` and `Payments` tables in rowid order.  (The
`Complaints`/`Hostels` tables never interact with occupancy or billing.) -/
structure DB where
  students : List Nat
  rooms : List Room
  allocations : List Allocation
  payments : List Payment
deriving Repr, DecidableEq

/-- Query `SELECT ... FROM Rooms WHERE room_id = ?` via `db.get`. -/
def findRoom (db : DB) (rid : Nat) : Option Room :=
  db.rooms.find? (fun r => r.room_id == rid)

/-- Query `SELECT ... FROM Allocations WHERE student_id = ?` via `db.get`. -/
def findAllocation (db : DB) (sid : Nat) : Option Allocation :=
  db.allocations.find? (fun a => a.student_id == sid)

/-- Query `SELECT student_id FROM Students WHERE student_id = ?` via `db.get`. -/
def studentExists (db : DB) (sid : Nat) : Bool :=
  db.students.contains sid

/-- The join `FROM Allocations JOIN Rooms ON Rooms.room_id =
Allocations.room_id WHERE Allocations.student_id = ?` via `db.get`: the
first allocation of the student whose room row exists. -/
def allocationWithRoom (db : DB) (sid : Nat) : Option (Allocation × Room) :=
  ((db.allocations.filter (fun a => a.student_id == sid)).filterMap
    (fun a => (findRoom db a.room_id).map (fun r => (a, r)))).head?

/-- Query `SELECT date FROM Payments WHERE student_id = ? ORDER BY date DESC
LIMIT 1`: the maximal payment date of the student (ISO-string order is
chronological order). -/
def lastPaymentDate (db : DB) (sid : Nat) : Option Int :=
  ((db.payments.filter (fun p => p.student_id == sid)).map (fun p => p.date)).max?

/-- Autoincrement for `Allocations`. -/
def nextAllocationId (db : DB) : Nat :=
  (db.allocations.map (fun a => a.allocation_id)).foldl max 0 + 1

/-- Autoincrement for `Payments`. -/
def nextPaymentId (db : DB) : Nat :=
  (db.payments.map (fun p => p.payment_id)).foldl max 0 + 1

/-- Autoincrement for `Rooms`. -/
def nextRoomId (db : DB) : Nat :=
  (db.rooms.map (fun r => r.room_id)).foldl max 0 + 1

/-- An error response: HTTP status plus message. -/
structure ApiError where
  status : Nat
  message : String
deriving Repr, DecidableEq

/-- Function `resolveFeeStatus(rawDaysLate, hasPayment)` (forms.js lines 1248-1254):
`rawDaysLate` is `null` or the signed day difference `today - dueDate`. -/
def resolveFeeStatus (rawDaysLate : Option Int) (hasPayment : Bool) : String :=
  if !hasPayment then "Payment Pending"
  else
    match rawDaysLate with
    | none => "Paid"
    | some d =>
      if d ≤ 0 then "Paid"
      else if d ≤ 5 then "Late"
      else if d ≤ 30 then "Defaulter"
      else "Critical Defaulter"

/-- The JSON object `buildFeeSnapshot` hands its callback on success
(forms.js lines 1294-1306). -/
structure FeeSnapshot where
  student_id : Nat
  monthly_fee : ℚ
  room_type : String
  allocation_date : Int
  last_payment_date : Option Int
  due_date : Option Int
  days_late : Int
  fine : Int
  total_payable : ℚ
  fee_status : String
  today : Int
deriving Repr, DecidableEq

/-- The success branch of `buildFeeSnapshot` (forms.js lines 1283-1306):
due date, clamped days late, fine and status from the last payment date. -/
def mkSnapshot (sid : Nat) (alloc : Allocation) (room : Room)
    (lastPayment : Option Int) (today : Int) : FeeSnapshot :=
  let dueDate : Option Int := lastPayment.map (fun d => d + 30)
  let rawDaysLate : Option Int := dueDate.map (fun d => today - d)
  let daysLate : Int :=
    match rawDaysLate with
    | some d => if d > 0 then d else 0
    | none => 0
  let fine : Int := if daysLate > 0 then daysLate * 100 else 0
  { student_id := sid
    monthly_fee := room.monthly_fee
    room_type := room.room_type
    allocation_date := alloc.allocation_date
    last_payment_date := lastPayment
    due_date := dueDate
    days_late := daysLate
    fine := fine
    total_payable := qadd room.monthly_fee ((fine : Int) : ℚ)
    fee_status := resolveFeeStatus rawDaysLate lastPayment.isSome
    today := today }

/-- Function `buildFeeSnapshot(studentId, callback)` (forms.js lines 1256-1306):
requires an allocation joined to its room and a configured positive fee
(`Number.isFinite` is vacuous over `ℚ`), then derives the snapshot. -/
def buildFeeSnapshot (db : DB) (sid : Nat) (today : Int) :
    Except ApiError FeeSnapshot :=
  match allocationWithRoom db sid with
  | none => .error ⟨400, "Student must be allocated to a room before paying fees"⟩
  | some (alloc, room) =>
    if room.monthly_fee ≤ 0 then
      .error ⟨500, "Room fee is not configured for this allocation"⟩
    else
      .ok (mkSnapshot sid alloc room (lastPaymentDate db sid) today)

/-- Outcome of a mutating handler: on success the new database plus the
response payload, on error the HTTP status, the message, and the database
as the caller leaves it (for transactional handlers: the pre-call database
after ROLLBACK; for the non-transactional ones: whatever writes stuck). -/
inductive OpResult (α : Type) where
  | ok (db : DB) (payload : α)
  | err (status : Nat) (message : String) (db : DB)
deriving Repr, DecidableEq

/-- The database an `OpResult` leaves behind. -/
def OpResult.dbOut {α : Type} : OpResult α → DB
  | .ok db _ => db
  | .err _ _ db => db

/-- Whether an `OpResult` is an error response. -/
def OpResult.isErr {α : Type} : OpResult α → Bool
  | .ok _ _ => false
  | .err _ _ _ => true

/-- The HTTP status of an `OpResult`, when it is an error response. -/
def OpResult.errStatus {α : Type} : OpResult α → Option Nat
  | .ok _ _ => none
  | .err s _ _ => some s

/-- Handler `POST /allocate` (forms.js lines 1584-1645).  `faults` lists the write
steps whose `db.run` fails: step `0` is the allocation INSERT, step `1` the
occupancy UPDATE.  The handler runs outside any transaction, so a fault at
step `1` leaves the INSERT of step `0` in place. -/
def allocate (faults : List Nat) (db : DB) (sid rid : Nat) (today : Int) :
    OpResult Unit :=
  if sid = 0 ∨ rid = 0 then
    .err 400 "Student and room are required" db
  else if ¬ studentExists db sid then
    .err 404 "Student does not exist" db
  else if (findAllocation db sid).isSome then
    .err 400 "Student is already allocated to a room" db
  else
    match findRoom db rid with
    | none => .err 404 ("Room ID " ++ toString rid ++ " does not exist") db
    | some room =>
      if ((room.current_occupancy : Int) : ℚ) ≥ room.capacity then
        .err 400 "Room is full" db
      else if faults.contains 0 then
        .err 500 "Error allocating student" db
      else
        let db1 : DB := { db with
          allocations := db.allocations ++
            [⟨nextAllocationId db, sid, rid, today⟩] }
        if faults.contains 1 then
          .err 500 "Error updating room" db1
        else
          .ok { db1 with
            rooms := db1.rooms.map (fun r =>
              if r.room_id == rid then
                { r with current_occupancy := r.current_occupancy + 1 }
              else r) } ()

/-- Handler `POST /transfer-room` (forms.js lines 1650-1714).  The whole handler
runs inside `BEGIN TRANSACTION`; every error branch issues ROLLBACK, so it
returns the pre-call database.  `faults` lists the failing write steps:
`0` allocation UPDATE, `1` old-room decrement, `2` new-room increment,
`3` COMMIT. -/
def transferRoom (faults : List Nat) (db : DB) (sid rid : Nat) (today : Int) :
    OpResult (Nat × Nat) :=
  if sid = 0 ∨ rid = 0 then
    .err 400 "student_id and new_room_id are required" db
  else if ¬ studentExists db sid then
    .err 404 "Student does not exist" db
  else
    match findAllocation db sid with
    | none => .err 400 "Student is not allocated to any room" db
    | some alloc =>
      match findRoom db rid with
      | none => .err 404 ("Room ID " ++ toString rid ++ " does not exist") db
      | some room =>
        if alloc.room_id = rid then
          .err 400 "Student is already in this room" db
        else if ((room.current_occupancy : Int) : ℚ) ≥ room.capacity then
          .err 400 "New room is full" db
        else if faults.contains 0 then
          .err 500 "Error updating allocation" db
        else
          let db1 : DB := { db with
            allocations := db.allocations.map (fun a =>
              if a.allocation_id == alloc.allocation_id then
                { a with room_id := rid, allocation_date := today }
              else a) }
          if faults.contains 1 then
            .err 500 "Error updating old room occupancy" db
          else
            let db2 : DB := { db1 with
              rooms := db1.rooms.map (fun r =>
                if r.room_id == alloc.room_id then
                  { r with current_occupancy :=
                      if r.current_occupancy > 0 then r.current_occupancy - 1
                      else 0 }
                else r) }
            if faults.contains 2 then
              .err 500 "Error updating new room occupancy" db
            else
              let db3 : DB := { db2 with
                rooms := db2.rooms.map (fun r =>
                  if r.room_id == rid then
                    { r with current_occupancy := r.current_occupancy + 1 }
                  else r) }
              if faults.contains 3 then
                .err 500 "Error committing transfer" db
              else
                .ok db3 (alloc.room_id, rid)

/-- The `reason` ternary chain of the payment-mismatch response (forms.js
lines 1786-1790): first-ever payment, late renewal, or on-time renewal. -/
def mismatchReason (snapshot : FeeSnapshot) : String :=
  if snapshot.last_payment_date.isNone then
    "First payment must match the monthly fee."
  else if snapshot.days_late > 0 then
    "Includes PKR " ++ toString snapshot.fine ++ " late fee for " ++
      toString snapshot.days_late ++ " day(s)."
  else
    "Payment must match the monthly fee for this billing cycle."

/-- Handler `POST /payments/add` (forms.js lines 1755-1818): amount prevalidation,
student lookup, snapshot, exact-match check against the rounded total, then
the INSERT (the stored amount is the *rounded expected total*), and a
recomputed post-payment snapshot.  All error branches precede the INSERT,
so they leave the database unchanged. -/
def addPayment (db : DB) (sid : Nat) (amount : ℚ) (today : Int) :
    OpResult (Nat × Option FeeSnapshot) :=
  if sid = 0 then
    .err 400 "Student and amount are required" db
  else if amount ≤ 0 ∨ amount > MAX_MONTHLY_FEE then
    .err 400 "Invalid payment amount (max 500000 PKR)" db
  else if ¬ studentExists db sid then
    .err 404 "Student does not exist" db
  else
    match buildFeeSnapshot db sid today with
    | .error e => .err e.status e.message db
    | .ok snapshot =>
      let expected := round2 snapshot.total_payable
      let provided := round2 amount
      if provided ≠ expected then
        .err 400 ("Expected payment is PKR " ++ toString expected ++ ". " ++
          mismatchReason snapshot ++ " Partial or extra payments are not allowed.") db
      else
        let pid := nextPaymentId db
        let db1 : DB := { db with
          payments := db.payments ++ [⟨pid, sid, expected, today⟩] }
        match buildFeeSnapshot db1 sid today with
        | .error _ => .ok db1 (pid, none)
        | .ok updated => .ok db1 (pid, some updated)

/-- Handler `DELETE /students/:id` (forms.js lines 2191-2286).  The handler runs in
a transaction: on success it decrements (guarded at `> 0`) the occupancy of
the room of each of the student's allocations, then deletes the student's
allocations, payments and the student row; any storage fault rolls the
whole unit back. -/
def deleteStudent (fault : Bool) (db : DB) (sid : Nat) : OpResult Unit :=
  if sid = 0 then
    .err 400 "Invalid student id" db
  else if ¬ studentExists db sid then
    .err 404 "Student not found" db
  else if fault then
    .err 500 "Error deleting student" db
  else
    let roomIds :=
      (db.allocations.filter (fun a => a.student_id == sid)).map
        (fun a => a.room_id)
    let rooms1 := roomIds.foldl (fun rs rid =>
      rs.map (fun r =>
        if r.room_id == rid ∧ r.current_occupancy > 0 then
          { r with current_occupancy := r.current_occupancy - 1 }
        else r)) db.rooms
    .ok { students := db.students.filter (fun s => s ≠ sid)
          rooms := rooms1
          allocations := db.allocations.filter (fun a => ¬ a.student_id = sid)
          payments := db.payments.filter (fun p => ¬ p.student_id = sid) } ()

/-- Handler `POST /rooms/add` (forms.js lines 2047-2080) restricted to the modelled
columns: `validateRoomPayload` demands a non-empty room number of at most 12
characters, `0 < capacity ≤ MAX_ROOM_CAPACITY` and
`0 ≤ monthly_fee ≤ MAX_MONTHLY_FEE` (both plain JS number comparisons — no
integrality requirement), rejects duplicate room numbers, and inserts the
room with `current_occupancy = 0`. -/
def addRoom (db : DB) (roomNumber : String) (capacity : ℚ)
    (monthlyFee : ℚ) (roomType : String) : OpResult Nat :=
  if roomNumber = "" ∨ roomNumber.length > 12 then
    .err 400 "Room number is required" db
  else if ¬ (0 < capacity ∧ capacity ≤ MAX_ROOM_CAPACITY) then
    .err 400 "Capacity must be between 1 and 50" db
  else if ¬ (0 ≤ monthlyFee ∧ monthlyFee ≤ MAX_MONTHLY_FEE) then
    .err 400 "Monthly fee must be between 0 and 500000 PKR" db
  else if (db.rooms.find? (fun r => r.room_number == roomNumber)).isSome then
    .err 400 "Room number already exists" db
  else
    let rid := nextRoomId db
    .ok { db with
      rooms := db.rooms ++ [⟨rid, roomNumber, capacity, 0, roomType, monthlyFee⟩] }
      rid

/-- The capacity-updating slice of `PUT /rooms/:id` (forms.js lines
2085-2110): the new capacity passes the same `1..50` range check and is
rejected when it is below the room's current occupancy. -/
def resizeRoomCapacity (db : DB) (rid : Nat) (newCapacity : ℚ) : OpResult Unit :=
  if rid = 0 then
    .err 400 "Invalid room id" db
  else if ¬ (0 < newCapacity ∧ newCapacity ≤ MAX_ROOM_CAPACITY) then
    .err 400 "Capacity must be between 1 and 50" db
  else
    match findRoom db rid with
    | none => .err 404 "Room not found" db
    | some room =>
      if newCapacity < ((room.current_occupancy : Int) : ℚ) then
        .err 400 "Capacity cannot be less than current occupancy" db
      else
        .ok { db with
          rooms := db.rooms.map (fun r =>
            if r.room_id == rid then { r with capacity := newCapacity } else r) } ()

/-- Rooms never over capacity nor negatively occupied, as a decidable check. -/
def roomsWithinCapacity (db : DB) : Bool :=
  db.rooms.all (fun r =>
    decide (0 ≤ r.current_occupancy) &&
    decide (((r.current_occupancy : Int) : ℚ) ≤ r.capacity))

/-- At most one `Allocations` row per student: no two rows of the table
share a `student_id`. -/
def AtMostOneAllocation (db : DB) : Prop :=
  db.allocations.Pairwise (fun a b => a.student_id ≠ b.student_id)

/-- A resident with `monthlyFee = 5000` whose single payment is on day 0:
the staircase scenario database. -/
def dbStaircase : DB :=
  { students := [1]
    rooms := [⟨1, "101", 2, 1, "Standard", 5000⟩]
    allocations := [⟨1, 1, 1, 0⟩]
    payments := [⟨1, 1, 5000, 0⟩] }

/-- A resident allocated to a 5000-fee room with no payment yet. -/
def dbNoPayment : DB :=
  { students := [1]
    rooms := [⟨1, "101", 2, 1, "Standard", 5000⟩]
    allocations := [⟨1, 1, 1, 0⟩]
    payments := [] }

/-- Student 1 allocated to room 1; room 2 is full (capacity 1, occupancy 1);
student 2 unallocated. -/
def dbTaxonomy : DB :=
  { students := [1, 2]
    rooms := [⟨1, "101", 2, 1, "Standard", 5000⟩, ⟨2, "102", 1, 1, "Standard", 4000⟩]
    allocations := [⟨1, 1, 1, 0⟩]
    payments := [] }

/-- Three students and no rooms yet: the starting point of the fractional
capacity scenario. -/
def dbThreeStudents : DB :=
  { students := [1, 2, 3]
    rooms := []
    allocations := []
    payments := [] }

/-- A resident whose room fee is 499900.004 (accepted by the room
validation: it is finite, non-negative and at most 500000) who paid 31 days
ago, so the snapshot carries a 100 PKR fine. -/
def dbFeeEdge : DB :=
  { students := [1]
    rooms := [⟨1, "101", 2, 1, "Standard", mkRat 124975001 250⟩]
    allocations := [⟨1, 1, 1, 0⟩]
    payments := [⟨1, 1, mkRat 124975001 250, 0⟩] }

/-- The database after adding the fractional-capacity room `5/2` to
`dbThreeStudents`. -/
def dbFracRoom : DB :=
  (addRoom dbThreeStudents "101" (mkRat 5 2) 5000 "Standard").dbOut

/-- State `dbFracRoom` after allocating students 1 and 2 into the `5/2` room. -/
def dbFracTwo : DB :=
  (allocate [] (allocate [] dbFracRoom 1 1 0).dbOut 2 1 0).dbOut

/-- State `dbFracTwo` after allocating student 3 into the `5/2` room as well. -/
def dbFracThree : DB :=
  (allocate [] dbFracTwo 3 1 0).dbOut

/-- Claim C1, counterexample: for a resident with `lastPaymentDate = D` (day
0) and `monthlyFee = 5000`, the snapshot at `today = D+35` has `daysLate =
5`, which `resolveFeeStatus` classifies as `"Late"` (the `1..5` band), not
as the claimed `"Defaulter"`; the fine is 500 as claimed. -/
theorem fee_staircase_d35_is_late_not_defaulter :
    (buildFeeSnapshot dbStaircase 1 35).toOption.map
      (fun s => (s.fee_status, s.fine)) = some ("Late", 500) ∧
    "Late" ≠ "Defaulter" := by decide

/-- Claim C1, amended: with `lastPaymentDate = D` (day 0) and `monthlyFee =
5000`, the snapshot at `D+29` is `"Paid"`; at `D+31` it is `"Late"` with
fine 100; at `D+35` it is `"Late"` (not `"Defaulter"`) with fine 500; and
at `D+61` it is `"Critical Defaulter"` (the code spelling of
`CriticalDefaulter`) with fine 3100. -/
theorem fee_staircase :
    (buildFeeSnapshot dbStaircase 1 29).toOption.map
      (fun s => (s.fee_status, s.fine)) = some ("Paid", 0) ∧
    (buildFeeSnapshot dbStaircase 1 31).toOption.map
      (fun s => (s.fee_status, s.fine)) = some ("Late", 100) ∧
    (buildFeeSnapshot dbStaircase 1 35).toOption.map
      (fun s => (s.fee_status, s.fine)) = some ("Late", 500) ∧
    (buildFeeSnapshot dbStaircase 1 61).toOption.map
      (fun s => (s.fee_status, s.fine)) = some ("Critical Defaulter", 3100) := by
  decide

/-- Claim C4: the transfer endpoint is all-or-nothing.  Whatever the
starting state and whichever step fails — missing student, missing room, no
allocation, same-room target, full target room, or an injected storage
fault on any of the four write steps (including the increment and commit
steps that run after the old bed's decrement) — an error response leaves
the database exactly as it was before the call. -/
theorem transfer_atomic (faults : List Nat) (db : DB) (sid rid : Nat)
    (today : Int) (s : Nat) (m : String) (dbOut : DB)
    (h : transferRoom faults db sid rid today = .err s m dbOut) :
    dbOut = db := by
  unfold transferRoom at h
  repeat' split at h
  all_goals first
    | (injection h with h1 h2 h3; exact h3.symm)
    | (cases h)

/-- A state used to exercise `transfer_atomic`: student 1 lives in the full
room 1; room 2 has a free bed. -/
def dbTransferEx : DB :=
  { students := [1]
    rooms := [⟨1, "101", 1, 1, "Standard", 5000⟩, ⟨2, "102", 1, 0, "Standard", 4000⟩]
    allocations := [⟨1, 1, 1, 0⟩]
    payments := [] }

/-- Witness for `transfer_atomic`: a transfer forced to fail at the
new-room increment (after the old bed was released inside the transaction)
returns the pre-call database. -/
theorem transfer_atomic_witness : dbTransferEx = dbTransferEx :=
  transfer_atomic [2] dbTransferEx 1 2 0 500
    "Error updating new room occupancy" dbTransferEx (by decide)

/-- Claim C5: the room validation has no integrality check on `capacity`
(unlike `floor_level`), so `POST /rooms/add` accepts the capacity `5/2`;
after two allocations the room satisfies `occupancy ≤ capacity`
(`2 ≤ 5/2`), yet a third allocation passes the fullness check
(`occupancy >= capacity` compares `2 ≥ 5/2`, false) and drives the
occupancy to `3 > 5/2`, violating the `0 ≤ occupancy ≤ capacity` invariant
the claim states.  The spec's data model declares capacity a positive
integer, so the missing check is a validation slip in the code. -/
theorem fractional_capacity_breaks_occupancy_bound :
    (addRoom dbThreeStudents "101" (mkRat 5 2) 5000 "Standard").isErr = false ∧
    roomsWithinCapacity dbFracTwo = true ∧
    (allocate [] dbFracTwo 3 1 0).isErr = false ∧
    roomsWithinCapacity dbFracThree = false := by decide

/-- Claim C9, counterexample: allocating an already-assigned resident is
rejected with HTTP status 400, not the claimed 409. -/
theorem allocate_conflict_is_400_not_409 :
    allocate [] dbTaxonomy 1 2 0 =
      .err 400 "Student is already allocated to a room" dbTaxonomy ∧
    (400 : Nat) ≠ 409 := by decide

/-- Claim C9, amended: a missing resident or room yields 404; a resident
with an existing allocation yields the conflict rejection with HTTP status
400 (not 409); a full room yields 400 with the database — hence the room's
occupancy — unchanged.  (`hsid`/`hrid` exclude the trivial
missing-parameter 400 of falsy ids.) -/
theorem allocate_error_taxonomy (faults : List Nat) (db : DB) (sid rid : Nat)
    (today : Int) (hsid : sid ≠ 0) (hrid : rid ≠ 0) :
    (¬ studentExists db sid →
      allocate faults db sid rid today = .err 404 "Student does not exist" db) ∧
    (studentExists db sid → (findAllocation db sid).isSome →
      allocate faults db sid rid today =
        .err 400 "Student is already allocated to a room" db) ∧
    (studentExists db sid → findAllocation db sid = none →
      findRoom db rid = none →
      allocate faults db sid rid today =
        .err 404 ("Room ID " ++ toString rid ++ " does not exist") db) ∧
    (∀ room : Room, studentExists db sid → findAllocation db sid = none →
      findRoom db rid = some room →
      ((room.current_occupancy : Int) : ℚ) ≥ room.capacity →
      allocate faults db sid rid today = .err 400 "Room is full" db) := by
  refine ⟨?_, ?_, ?_, ?_⟩
  · intro hns
    unfold allocate
    rw [if_neg (by tauto), if_pos hns]
  · intro hs halloc
    unfold allocate
    rw [if_neg (by tauto), if_neg (by simp [hs]), if_pos halloc]
  · intro hs halloc hroom
    unfold allocate
    rw [if_neg (by tauto), if_neg (by simp [hs]),
      if_neg (by simp [halloc]), hroom]
  · intro room hs halloc hroom hfull
    unfold allocate
    rw [if_neg (by tauto), if_neg (by simp [hs]),
      if_neg (by simp [halloc]), hroom]
    simp only [if_pos hfull]

/-- Witness for `allocate_error_taxonomy`: in `dbTaxonomy`, allocating the
unassigned student 2 into the full room 2 is rejected with `"Room is
full"` and the unchanged database. -/
theorem allocate_error_taxonomy_witness :
    allocate [] dbTaxonomy 2 2 0 = .err 400 "Room is full" dbTaxonomy :=
  (allocate_error_taxonomy [] dbTaxonomy 2 2 0 (by decide) (by decide)).2.2.2
    ⟨2, "102", 1, 1, "Standard", 4000⟩
    (by decide) (by decide) (by decide) (by decide)

/-- Destructuring a successful `buildFeeSnapshot`: there is an allocation
joined to its room, the fee is positive, and the snapshot is `mkSnapshot`
of the student's last payment date. -/
theorem buildFeeSnapshot_ok (db : DB) (sid : Nat) (today : Int)
    (snap : FeeSnapshot) (h : buildFeeSnapshot db sid today = .ok snap) :
    ∃ alloc room, allocationWithRoom db sid = some (alloc, room) ∧
      ¬ room.monthly_fee ≤ 0 ∧
      snap = mkSnapshot sid alloc room (lastPaymentDate db sid) today := by
  unfold buildFeeSnapshot at h
  split at h
  · cases h
  · rename_i alloc room heq
    split at h
    · cases h
    · rename_i hf
      injection h with h
      exact ⟨alloc, room, heq, hf, h.symm⟩

/-- Evaluation of `resolveFeeStatus` with a payment: the four day-late bands. -/
theorem resolveFeeStatus_some (d : Int) :
    resolveFeeStatus (some d) true =
      if d ≤ 0 then "Paid"
      else if d ≤ 5 then "Late"
      else if d ≤ 30 then "Defaulter"
      else "Critical Defaulter" := by
  simp [resolveFeeStatus]

/-- Evaluation of `resolveFeeStatus` without a payment. -/
theorem resolveFeeStatus_nopay (x : Option Int) :
    resolveFeeStatus x false = "Payment Pending" := by
  simp [resolveFeeStatus]

/-- Claim C2: whenever the snapshot of a resident with an active assignment
and a recorded payment (last payment date `L`) is computed, it satisfies
`dueDate = L + 30`, `daysLate = max 0 (today - dueDate)`,
`fine = daysLate * 100`, `totalPayable = monthlyFee + fine`, and the
`0 / 1..5 / 6..30 / >30` classification into `"Paid"` / `"Late"` /
`"Defaulter"` / `"Critical Defaulter"` (the code spelling of
`CriticalDefaulter`). -/
theorem snapshot_billing_formulas (db : DB) (sid : Nat) (today : Int)
    (snap : FeeSnapshot) (L : Int)
    (h : buildFeeSnapshot db sid today = .ok snap)
    (hL : lastPaymentDate db sid = some L) :
    snap.due_date = some (L + 30) ∧
    snap.days_late = max 0 (today - (L + 30)) ∧
    snap.fine = snap.days_late * 100 ∧
    snap.total_payable = snap.monthly_fee + (snap.fine : ℚ) ∧
    (snap.days_late = 0 → snap.fee_status = "Paid") ∧
    (1 ≤ snap.days_late ∧ snap.days_late ≤ 5 → snap.fee_status = "Late") ∧
    (6 ≤ snap.days_late ∧ snap.days_late ≤ 30 → snap.fee_status = "Defaulter") ∧
    (30 < snap.days_late → snap.fee_status = "Critical Defaulter") := by
  obtain ⟨alloc, room, hA, hf, rfl⟩ := buildFeeSnapshot_ok db sid today snap h
  rw [hL]
  simp only [mkSnapshot, Option.map_some', Option.isSome_some,
    resolveFeeStatus_some, qadd_eq_add]
  refine ⟨trivial, ?_, ?_, trivial, ?_, ?_, ?_, ?_⟩
  · split_ifs <;> omega
  · split_ifs <;> first | rfl | omega
  · intro h0
    split_ifs at h0 ⊢ <;> first | rfl | omega | (exfalso; omega)
  · intro hband
    obtain ⟨h1, h5⟩ := hband
    split_ifs at h1 h5 ⊢ <;> first | rfl | omega | (exfalso; omega)
  · intro hband
    obtain ⟨h6, h30⟩ := hband
    split_ifs at h6 h30 ⊢ <;> first | rfl | omega | (exfalso; omega)
  · intro h31
    split_ifs at h31 ⊢ <;> first | rfl | omega | (exfalso; omega)

/-- The snapshot `buildFeeSnapshot` computes for `dbStaircase` on day 31. -/
def snapStaircase31 : FeeSnapshot :=
  { student_id := 1, monthly_fee := 5000, room_type := "Standard",
    allocation_date := 0, last_payment_date := some 0, due_date := some 30,
    days_late := 1, fine := 100, total_payable := 5100,
    fee_status := "Late", today := 31 }

/-- Witness for `snapshot_billing_formulas` at `dbStaircase`, day 31. -/
theorem snapshot_billing_formulas_witness :
    snapStaircase31.due_date = some (0 + 30) :=
  (snapshot_billing_formulas dbStaircase 1 31 snapStaircase31 0
    (by rfl) (by decide)).1

/-- Claim C7: a resident with an active assignment and no recorded payment
gets a snapshot with `dueDate = null`, status `"Payment Pending"` (the code
spelling of `PaymentPending`), `fine = 0` and `totalPayable = monthlyFee`. -/
theorem no_payment_snapshot (db : DB) (sid : Nat) (today : Int)
    (snap : FeeSnapshot)
    (hnp : db.payments.filter (fun p => p.student_id == sid) = [])
    (h : buildFeeSnapshot db sid today = .ok snap) :
    snap.due_date = none ∧ snap.fee_status = "Payment Pending" ∧
    snap.fine = 0 ∧ snap.total_payable = snap.monthly_fee := by
  obtain ⟨alloc, room, hA, hf, rfl⟩ := buildFeeSnapshot_ok db sid today snap h
  have hL : lastPaymentDate db sid = none := by
    unfold lastPaymentDate
    rw [hnp]
    rfl
  rw [hL]
  simp only [mkSnapshot, Option.map_none', Option.isSome_none,
    resolveFeeStatus_nopay, qadd_eq_add]
  norm_num

/-- The snapshot `buildFeeSnapshot` computes for `dbNoPayment` on day 40. -/
def snapNoPayment40 : FeeSnapshot :=
  { student_id := 1, monthly_fee := 5000, room_type := "Standard",
    allocation_date := 0, last_payment_date := none, due_date := none,
    days_late := 0, fine := 0, total_payable := 5000,
    fee_status := "Payment Pending", today := 40 }

/-- The snapshot `buildFeeSnapshot` computes for `dbNoPayment` on day 0. -/
def snapNoPayment0 : FeeSnapshot :=
  { student_id := 1, monthly_fee := 5000, room_type := "Standard",
    allocation_date := 0, last_payment_date := none, due_date := none,
    days_late := 0, fine := 0, total_payable := 5000,
    fee_status := "Payment Pending", today := 0 }

/-- Witness for `no_payment_snapshot` at `dbNoPayment`, day 40. -/
theorem no_payment_snapshot_witness : snapNoPayment40.fee_status = "Payment Pending" :=
  (no_payment_snapshot dbNoPayment 1 40 snapNoPayment40
    (by decide) (by rfl)).2.1

/-- The allocation-update function applied by a transfer keeps every row's
`student_id`. -/
theorem transfer_update_keeps_student (rid : Nat) (today : Int) (aid : Nat)
    (a : Allocation) :
    ((if a.allocation_id == aid then
        { a with room_id := rid, allocation_date := today }
      else a) : Allocation).student_id = a.student_id := by
  split <;> rfl

/-- Appending a fresh allocation for a student with no existing row keeps
the one-row-per-student property. -/
theorem amoa_append (db : DB) (sid rid : Nat) (today : Int)
    (h : AtMostOneAllocation db) (hnone : findAllocation db sid = none) :
    List.Pairwise (fun a b : Allocation => a.student_id ≠ b.student_id)
      (db.allocations ++ [(⟨nextAllocationId db, sid, rid, today⟩ : Allocation)]) := by
  rw [List.pairwise_append]
  refine ⟨h, List.pairwise_singleton _ _, ?_⟩
  intro a ha b hb
  unfold findAllocation at hnone
  rw [List.find?_eq_none] at hnone
  have hna := hnone a ha
  have hb2 : b = (⟨nextAllocationId db, sid, rid, today⟩ : Allocation) := by
    simpa using hb
  subst hb2
  have hne : a.student_id ≠ sid := by simpa using hna
  exact hne

/-- Operation `allocate` preserves the at-most-one-allocation invariant on every
path, including the non-transactional fault path that keeps the INSERT. -/
theorem allocate_preserves_amoa (faults : List Nat) (db : DB) (sid rid : Nat)
    (today : Int) (h : AtMostOneAllocation db) :
    AtMostOneAllocation ((allocate faults db sid rid today).dbOut) := by
  unfold allocate
  split
  · exact h
  split
  · exact h
  split
  · exact h
  split
  · exact h
  rename_i hnotalloc _ _ _
  have hnone : findAllocation db sid = none := by
    simp only [Option.isSome_iff_exists] at hnotalloc
    cases hfa : findAllocation db sid with
    | none => rfl
    | some a => exact absurd ⟨a, hfa⟩ hnotalloc
  split
  · exact h
  split
  · exact h
  split
  · exact amoa_append db sid rid today h hnone
  · exact amoa_append db sid rid today h hnone

/-- Operation `transferRoom` preserves the at-most-one-allocation invariant: errors
roll back, and the success path maps rows without touching `student_id`. -/
theorem transferRoom_preserves_amoa (faults : List Nat) (db : DB)
    (sid rid : Nat) (today : Int) (h : AtMostOneAllocation db) :
    AtMostOneAllocation ((transferRoom faults db sid rid today).dbOut) := by
  have hmap : ∀ aid : Nat,
      (db.allocations.map (fun a =>
        if a.allocation_id == aid then
          { a with room_id := rid, allocation_date := today }
        else a)).Pairwise (fun a b => a.student_id ≠ b.student_id) := by
    intro aid
    rw [List.pairwise_map]
    refine List.Pairwise.imp ?_ h
    intro a b hab
    rw [transfer_update_keeps_student, transfer_update_keeps_student]
    exact hab
  unfold transferRoom
  repeat' split
  all_goals first
    | exact h
    | exact hmap _

/-- Operation `deleteStudent` preserves the at-most-one-allocation invariant: the
success path filters the allocation table. -/
theorem deleteStudent_preserves_amoa (fault : Bool) (db : DB) (sid : Nat)
    (h : AtMostOneAllocation db) :
    AtMostOneAllocation ((deleteStudent fault db sid).dbOut) := by
  unfold deleteStudent
  repeat' split
  all_goals first
    | exact h
    | exact List.Pairwise.sublist (List.filter_sublist _) h

/-- Claim C6: from any state with at most one active allocation per
resident, `allocate`, `transferRoom` and `deleteStudent` (under any fault
scenario) lead only to states with at most one active allocation per
resident; moreover `allocate` rejects a resident who already has an
allocation, `transferRoom` never changes the number of allocation rows (it
updates in place), and a successful `deleteStudent` leaves no allocation
row of the deleted resident behind. -/
theorem single_active_assignment (db : DB) (h : AtMostOneAllocation db) :
    (∀ faults sid rid today,
      AtMostOneAllocation ((allocate faults db sid rid today).dbOut)) ∧
    (∀ faults sid rid today,
      AtMostOneAllocation ((transferRoom faults db sid rid today).dbOut)) ∧
    (∀ fault sid, AtMostOneAllocation ((deleteStudent fault db sid).dbOut)) ∧
    (∀ faults sid rid today, (findAllocation db sid).isSome →
      (allocate faults db sid rid today).isErr = true) ∧
    (∀ faults sid rid today,
      ((transferRoom faults db sid rid today).dbOut).allocations.length =
        db.allocations.length) ∧
    (∀ fault sid db', deleteStudent fault db sid = .ok db' () →
      db'.allocations.filter (fun a => a.student_id == sid) = []) := by
  refine ⟨fun faults sid rid today => allocate_preserves_amoa faults db sid rid today h,
    fun faults sid rid today => transferRoom_preserves_amoa faults db sid rid today h,
    fun fault sid => deleteStudent_preserves_amoa fault db sid h,
    ?_, ?_, ?_⟩
  · intro faults sid rid today hsome
    unfold allocate
    repeat' split
    all_goals simp_all [OpResult.isErr]
  · intro faults sid rid today
    unfold transferRoom
    repeat' split
    all_goals simp [OpResult.dbOut]
  · intro fault sid db' hok
    unfold deleteStudent at hok
    repeat' split at hok
    all_goals first
      | (injection hok with hok _
         subst hok
         rw [List.filter_eq_nil_iff]
         intro a ha
         dsimp only at ha
         have h2 := (List.mem_filter.mp ha).2
         simpa using h2)
      | cases hok

/-- Witness for `single_active_assignment`: allocating student 2 of
`dbTaxonomy` into room 1 keeps the invariant. -/
theorem single_active_assignment_witness :
    AtMostOneAllocation ((allocate [] dbTaxonomy 2 1 0).dbOut) :=
  (single_active_assignment dbTaxonomy
    (by unfold AtMostOneAllocation; decide)).1 [] 2 1 0

/-- Destructuring a successful `addPayment`: the guards passed, the
provided amount rounds to the rounded total of the pre-payment snapshot,
and the only write is the appended payment row carrying the rounded
expected total; the returned snapshot is the recomputation on the new
state. -/
theorem addPayment_ok (db : DB) (sid : Nat) (amount : ℚ) (today : Int)
    (db' : DB) (pid : Nat) (osnap : Option FeeSnapshot)
    (h : addPayment db sid amount today = .ok db' (pid, osnap)) :
    ∃ presnap, buildFeeSnapshot db sid today = .ok presnap ∧
      sid ≠ 0 ∧ ¬ (amount ≤ 0 ∨ amount > MAX_MONTHLY_FEE) ∧
      round2 amount = round2 presnap.total_payable ∧
      pid = nextPaymentId db ∧
      db' = { db with payments := db.payments ++
        [⟨nextPaymentId db, sid, round2 presnap.total_payable, today⟩] } ∧
      osnap = (buildFeeSnapshot db' sid today).toOption := by
  unfold addPayment at h
  split at h
  · cases h
  rename_i hsid
  split at h
  · cases h
  rename_i hbad
  split at h
  · cases h
  split at h
  · cases h
  rename_i presnap hsnap
  dsimp only at h
  split at h
  · cases h
  rename_i hne
  refine ⟨presnap, hsnap, hsid, hbad, not_not.mp hne, ?_⟩
  split at h <;>
    (rename_i hpost
     injection h with h1 h2
     injection h2 with h2a h2b
     subst h1
     exact ⟨h2a.symm, rfl, by rw [hpost, ← h2b]; rfl⟩)

/-- A payment whose rounded amount differs from the rounded total of the
current snapshot is rejected, and the database is left unchanged: every
error branch of `addPayment` precedes the INSERT. -/
theorem addPayment_mismatch (db : DB) (sid : Nat) (amount : ℚ) (today : Int)
    (presnap : FeeSnapshot)
    (hpre : buildFeeSnapshot db sid today = .ok presnap)
    (hne : round2 amount ≠ round2 presnap.total_payable) :
    (addPayment db sid amount today).isErr = true ∧
    (addPayment db sid amount today).dbOut = db := by
  unfold addPayment
  split
  · exact ⟨rfl, rfl⟩
  split
  · exact ⟨rfl, rfl⟩
  split
  · exact ⟨rfl, rfl⟩
  split
  · exact ⟨rfl, rfl⟩
  · rename_i presnap2 hsnap2
    rw [hpre] at hsnap2
    injection hsnap2 with hsnap2
    subst hsnap2
    rw [if_pos hne]
    exact ⟨rfl, rfl⟩

/-- Claim C3: `addPayment` accepts an amount only when its two-decimal
rounding equals that of the freshly computed snapshot's `totalPayable`;
any amount whose rounding differs — smaller or larger — is rejected with
an error and no change to the database; in particular, with a computed
`totalPayable` of 5000, amounts 4000 and 5100 are both rejected with the
400 validation response and no payment row is inserted. -/
theorem payment_exact_amount_required :
    (∀ db sid amount today db' pid osnap presnap,
      buildFeeSnapshot db sid today = .ok presnap →
      addPayment db sid amount today = .ok db' (pid, osnap) →
      round2 amount = round2 presnap.total_payable) ∧
    (∀ db sid amount today presnap,
      buildFeeSnapshot db sid today = .ok presnap →
      round2 amount ≠ round2 presnap.total_payable →
      (addPayment db sid amount today).isErr = true ∧
      (addPayment db sid amount today).dbOut = db) ∧
    ((buildFeeSnapshot dbNoPayment 1 0).toOption.map
      (fun s => s.total_payable) = some 5000 ∧
     (addPayment dbNoPayment 1 4000 0).errStatus = some 400 ∧
     (addPayment dbNoPayment 1 4000 0).dbOut = dbNoPayment ∧
     (addPayment dbNoPayment 1 5100 0).errStatus = some 400 ∧
     (addPayment dbNoPayment 1 5100 0).dbOut = dbNoPayment) := by
  refine ⟨?_, ?_, by decide⟩
  · intro db sid amount today db' pid osnap presnap hpre hok
    obtain ⟨presnap2, hpre2, -, -, hround, -⟩ :=
      addPayment_ok db sid amount today db' pid osnap hok
    rw [hpre] at hpre2
    injection hpre2 with hpre2
    subst hpre2
    exact hround
  · intro db sid amount today presnap hpre hne
    exact addPayment_mismatch db sid amount today presnap hpre hne

/-- Witness for `payment_exact_amount_required`: amount 4321 against the
5000 total of `dbNoPayment` is rejected with the database unchanged. -/
theorem payment_exact_amount_required_witness :
    (addPayment dbNoPayment 1 4321 0).isErr = true ∧
    (addPayment dbNoPayment 1 4321 0).dbOut = dbNoPayment :=
  payment_exact_amount_required.2.1 dbNoPayment 1 4321 0 snapNoPayment0
    (by rfl) (by decide)

theorem round2_mono {a b : ℚ} (h : a ≤ b) : round2 a ≤ round2 b := by
  rw [round2_eq, round2_eq]
  have hf : Int.floor (a * 100 + 1/2) ≤ Int.floor (b * 100 + 1/2) :=
    Int.floor_le_floor (by linarith)
  have hq : ((Int.floor (a * 100 + 1/2) : Int) : ℚ) ≤
      ((Int.floor (b * 100 + 1/2) : Int) : ℚ) := by exact_mod_cast hf
  linarith

theorem round2_max_fee : round2 MAX_MONTHLY_FEE = MAX_MONTHLY_FEE := by decide

/-- Claim C10, amended: `addPayment` rejects — before looking at the
student or the snapshot — every amount that is `≤ 0` or above 500000 PKR
(the `Number.isFinite` part of the guard is vacuous over `ℚ`); and whenever
the *rounded* `totalPayable` of the computed snapshot exceeds 500000, no
amount at all is accepted.  (The unrounded comparison of the original claim
fails: see the counterexample, where `totalPayable` exceeds 500000 by less
than half a cent and an amount of exactly 500000 is accepted.) -/
theorem payment_amount_guard (db : DB) (sid : Nat) (amount : ℚ) (today : Int)
    (hsid : sid ≠ 0) :
    (amount ≤ 0 ∨ amount > MAX_MONTHLY_FEE →
      addPayment db sid amount today =
        .err 400 "Invalid payment amount (max 500000 PKR)" db) ∧
    (∀ presnap, buildFeeSnapshot db sid today = .ok presnap →
      round2 presnap.total_payable > MAX_MONTHLY_FEE →
      (addPayment db sid amount today).isErr = true) := by
  constructor
  · intro hbad
    unfold addPayment
    rw [if_neg hsid, if_pos hbad]
  · intro presnap hpre hgt
    cases hr : addPayment db sid amount today with
    | err s m d => rfl
    | ok db2 payload =>
      obtain ⟨pid, osnap⟩ := payload
      obtain ⟨presnap2, hpre2, -, hbad, hround, -⟩ :=
        addPayment_ok db sid amount today db2 pid osnap hr
      rw [hpre] at hpre2
      injection hpre2 with hpre2
      subst hpre2
      push_neg at hbad
      have hle : round2 amount ≤ round2 MAX_MONTHLY_FEE := round2_mono hbad.2
      rw [round2_max_fee, hround] at hle
      exact absurd hle (not_le.mpr hgt)

/-- Claim C10, counterexample: the fee 499900.004 (= 124975001/250) passes
the room validation; with a 100 PKR fine the snapshot's `totalPayable` is
500000.004 > 500000, yet `addPayment` accepts the amount 500000, because
the comparison uses two-decimal rounding and the amount guard compares the
raw amount, not the total. -/
theorem overcap_total_still_payable :
    (addRoom dbThreeStudents "201" 2 (mkRat 124975001 250) "Standard").isErr
      = false ∧
    (buildFeeSnapshot dbFeeEdge 1 31).toOption.map
      (fun s => decide (s.total_payable > 500000)) = some true ∧
    (addPayment dbFeeEdge 1 500000 31).isErr = false := by decide

/-- Witness for `payment_amount_guard`: 600000 PKR is rejected by the
amount guard with the database unchanged. -/
theorem payment_amount_guard_witness :
    addPayment dbNoPayment 1 600000 0 =
      .err 400 "Invalid payment amount (max 500000 PKR)" dbNoPayment :=
  (payment_amount_guard dbNoPayment 1 600000 0 (by decide)).1
    (Or.inr (by decide))

theorem foldl_max_le {a : Int} :
    ∀ (l : List Int) (x : Int), x ≤ a → (∀ y ∈ l, y ≤ a) →
      l.foldl max x ≤ a
  | [], _, hx, _ => hx
  | y :: ys, x, hx, h =>
    foldl_max_le ys (max x y)
      (max_le hx (h y (List.mem_cons_self y ys)))
      (fun z hz => h z (List.mem_cons_of_mem y hz))

theorem max?_append_singleton {l : List Int} {a : Int}
    (h : ∀ x ∈ l, x ≤ a) : (l ++ [a]).max? = some a := by
  cases l with
  | nil => rfl
  | cons x xs =>
    rw [List.cons_append, List.max?_cons', List.foldl_append]
    simp only [List.foldl_cons, List.foldl_nil]
    have hle : List.foldl max x xs ≤ a :=
      foldl_max_le xs x (h x (List.mem_cons_self x xs))
        (fun z hz => h z (List.mem_cons_of_mem x hz))
    rw [max_eq_right hle]

/-- After the INSERT, the student's newest payment date is `today`,
provided no stored payment postdates `today` (payments are always inserted
with the current date, so reachable states satisfy this). -/
theorem lastPaymentDate_after_insert (db : DB) (sid : Nat) (today : Int)
    (amt : ℚ) (pid : Nat) (hdates : ∀ p ∈ db.payments, p.date ≤ today) :
    lastPaymentDate
      { db with payments := db.payments ++ [⟨pid, sid, amt, today⟩] } sid =
      some today := by
  unfold lastPaymentDate
  have hsplit :
      List.filter (fun p => p.student_id == sid)
          (db.payments ++ [(⟨pid, sid, amt, today⟩ : Payment)]) =
        List.filter (fun p => p.student_id == sid) db.payments ++
          [(⟨pid, sid, amt, today⟩ : Payment)] := by
    rw [List.filter_append]
    simp
  rw [hsplit, List.map_append]
  simp only [List.map_cons, List.map_nil]
  apply max?_append_singleton
  intro x hx
  simp only [List.mem_map] at hx
  obtain ⟨p, hp, rfl⟩ := hx
  exact hdates p (List.mem_of_mem_filter hp)

/-- Claim C8: when `addPayment` succeeds, its only mutation is appending
one payment row dated `today` carrying the rounded expected total (rooms,
allocations, students and the existing payment rows are untouched), and
the snapshot it recomputes and returns has status `"Paid"` with
`dueDate = today + 30`.  `hdates` says no stored payment postdates `today`,
which holds in every reachable state since payments are inserted with the
current date. -/
theorem payment_success_effects (db : DB) (sid : Nat) (amount : ℚ)
    (today : Int) (db' : DB) (pid : Nat) (osnap : Option FeeSnapshot)
    (presnap : FeeSnapshot)
    (hok : addPayment db sid amount today = .ok db' (pid, osnap))
    (hpre : buildFeeSnapshot db sid today = .ok presnap)
    (hdates : ∀ p ∈ db.payments, p.date ≤ today) :
    db'.students = db.students ∧ db'.rooms = db.rooms ∧
    db'.allocations = db.allocations ∧
    db'.payments = db.payments ++
      [⟨nextPaymentId db, sid, round2 presnap.total_payable, today⟩] ∧
    ∃ post : FeeSnapshot, osnap = some post ∧
      post.fee_status = "Paid" ∧ post.due_date = some (today + 30) := by
  obtain ⟨presnap2, hpre2, -, -, -, -, hdb, hosnap⟩ :=
    addPayment_ok db sid amount today db' pid osnap hok
  rw [hpre] at hpre2
  injection hpre2 with hpre2
  subst hpre2
  obtain ⟨alloc, room, halloc, hf, -⟩ :=
    buildFeeSnapshot_ok db sid today presnap hpre
  subst hdb
  refine ⟨rfl, rfl, rfl, rfl, ?_⟩
  have hAW : allocationWithRoom
      { db with payments := db.payments ++
        [⟨nextPaymentId db, sid, round2 presnap.total_payable, today⟩] } sid =
      some (alloc, room) := halloc
  have hLP := lastPaymentDate_after_insert db sid today
    (round2 presnap.total_payable) (nextPaymentId db) hdates
  have hpost : buildFeeSnapshot
      { db with payments := db.payments ++
        [⟨nextPaymentId db, sid, round2 presnap.total_payable, today⟩] }
      sid today =
      .ok (mkSnapshot sid alloc room (some today) today) := by
    unfold buildFeeSnapshot
    rw [hAW]
    dsimp only
    rw [if_neg hf, hLP]
  refine ⟨mkSnapshot sid alloc room (some today) today, ?_, ?_, ?_⟩
  · rw [hosnap, hpost]
    rfl
  · show resolveFeeStatus (some (today - (today + 30))) true = "Paid"
    rw [resolveFeeStatus_some, if_pos (by omega)]
  · rfl

/-- The database after `dbNoPayment`'s resident pays the first 5000 fee on
day 0 (it coincides with `dbStaircase`). -/
def dbPaid0 : DB :=
  { students := [1]
    rooms := [⟨1, "101", 2, 1, "Standard", 5000⟩]
    allocations := [⟨1, 1, 1, 0⟩]
    payments := [⟨1, 1, 5000, 0⟩] }

/-- The post-payment snapshot returned for that first payment. -/
def snapPaid0 : FeeSnapshot :=
  { student_id := 1, monthly_fee := 5000, room_type := "Standard",
    allocation_date := 0, last_payment_date := some 0, due_date := some 30,
    days_late := 0, fine := 0, total_payable := 5000,
    fee_status := "Paid", today := 0 }

/-- Witness for `payment_success_effects`: the first 5000 payment on
`dbNoPayment` appends exactly one payment row. -/
theorem payment_success_effects_witness :
    dbPaid0.payments = dbNoPayment.payments ++
      [⟨nextPaymentId dbNoPayment, 1, round2 snapNoPayment0.total_payable, 0⟩] :=
  (payment_success_effects dbNoPayment 1 5000 0 dbPaid0 1 (some snapPaid0)
    snapNoPayment0 (by decide) (by rfl) (by decide)).2.2.2.1

end Hostel
